import Mathlib

/-
Verification development for the EEPP (ERCOT Energy Price Predictor) scripts.

The definitions below are a shallow embedding of the data-shaping core of
`_script/eepp_phase_1.py` and `_script/eepp_phase_2.py`: timestamp
normalization, the pandas merge/rename steps, the Phase 1 derived-metric
formulas, the zip-extraction helper, the paginated ERCOT API client, and the
DART-spread computation.  Machine floats are embedded as rationals; pandas
`NaN` / Python exceptions are embedded as `Option` / `none` where the claims
depend on them.
-/

namespace EEPP

/-- Calendar timestamp produced by timestamp normalization: a calendar date
(abstracted as a day index) together with a clock hour.  Models the result of
`pd.to_datetime(<date> + " " + (<hour_ending> - 1) + ":00")` in
`eepp_phase_1.py` line 182 and `eepp_phase_2.py` lines 205 and 208-209. -/
structure Timestamp where
  date : Nat
  hour : Nat
deriving DecidableEq

/-- Source representation of an hour-ending field: either a plain integer
(column `HOUR_ENDING` of the solar and wind reports) or a colon-delimited
clock string (column `HourEnding`, e.g. "24:00", of the system forecast and
price reports). -/
inductive HourField where
  | int (n : Int)
  | clock (s : String)
deriving DecidableEq

/-- Leading colon-delimited component of a string, as a character list:
models `str.split(":").str[0]`. -/
def leadingComponent (s : String) : List Char :=
  s.data.takeWhile fun c => c ≠ ':'

/-- Accumulating decimal parser over a character list; `none` on the first
non-digit character. -/
def decimalDigitsAux : List Char → Nat → Option Nat
  | [], acc => some acc
  | c :: cs, acc =>
      if c.isDigit then decimalDigitsAux cs (acc * 10 + (c.toNat - 48)) else none

/-- Integer parse of a character list, modelling Python `int(...)` as invoked
by `astype(int)`: an optional leading minus sign followed by at least one
decimal digit; `none` models the raised `ValueError` otherwise. -/
def parseDecimalInt : List Char → Option Int
  | [] => none
  | '-' :: cs =>
      if cs.isEmpty then none
      else (decimalDigitsAux cs 0).map fun n => -(n : Int)
  | cs => (decimalDigitsAux cs 0).map fun n => (n : Int)

/-- Reduction of an hour field to an integer hour ending.  A plain integer is
used as is; a clock string is split on ":" and its leading component parsed as
an integer, modelling
`df.HourEnding.astype(str).str.split(":").str[0].astype(int)`
(`eepp_phase_1.py` line 162, `eepp_phase_2.py` line 204). -/
def parseHourEnding : HourField → Option Int
  | HourField.int n => some n
  | HourField.clock s => parseDecimalInt (leadingComponent s)

/-- Timestamp built from a calendar date and a zero-based clock hour,
modelling `pd.to_datetime(<date> + " " + <hour> + ":00")`: parsing succeeds
exactly when the hour lies in 0..23, and the calendar date is taken over
unchanged (no rollover of any kind is performed). -/
def mkDatetime (d : Nat) (hm1 : Int) : Option Timestamp :=
  if 0 ≤ hm1 ∧ hm1 < 24 then some ⟨d, hm1.toNat⟩ else none

/-- Timestamp normalization of one row: parse the hour-ending field, subtract
one, and combine with the calendar date (`eepp_phase_1.py` lines 162 and 182;
`eepp_phase_2.py` lines 202-209). -/
def normalize (d : Nat) (f : HourField) : Option Timestamp :=
  (parseHourEnding f).bind fun h => mkDatetime d (h - 1)

/-- Numeric measurement columns of one row of the Phase 1 joined table, as
produced by the merges of the solar, wind, system forecast and HROC reports
(`eepp_phase_1.py` lines 161-166; the `_x`/`_y` suffixes stem from the
solar/wind merge, solar being the left table). -/
structure P1Row where
  systemTotal : ℚ
  copHslSystemWideWind : ℚ
  copHslSystemWideSolar : ℚ
  totalResourceMWZoneSouth : ℚ
  totalResourceMWZoneNorth : ℚ
  totalResourceMWZoneWest : ℚ
  totalResourceMWZoneHouston : ℚ
deriving DecidableEq

/-- Derived columns of one row of the Phase 1 joined table
(`eepp_phase_1.py` lines 167-181), after the rename of `SystemTotal`,
`COP_HSL_SYSTEM_WIDE_y` and `COP_HSL_SYSTEM_WIDE_x` to the `Forecasted ...`
names. -/
structure P1Derived where
  forecastedDemand : ℚ
  forecastedWindSupply : ℚ
  forecastedSolarSupply : ℚ
  forecastedRenewablesOutput : ℚ
  dispatchableSupply : ℚ
  eactorDhhrsr : ℚ
  totalResourceOutages : ℚ
  forecastedNetLoad : ℚ
  forecastedNetThermalCapacity : ℚ
  forecastedThermalReserveMargin : ℚ
deriving DecidableEq

/-- Column derivation for one row of the Phase 1 joined table with the
broadcast capacity scalar `cap` (column `EACTOR_DHHRSR`), transcribing
`eepp_phase_1.py` lines 172-181 assignment by assignment. -/
def deriveRow (cap : ℚ) (r : P1Row) : P1Derived :=
  let forecastedDemand := r.systemTotal
  let forecastedWindSupply := r.copHslSystemWideWind
  let forecastedSolarSupply := r.copHslSystemWideSolar
  let forecastedRenewablesOutput := forecastedWindSupply + forecastedSolarSupply
  let dispatchableSupply := forecastedDemand - forecastedRenewablesOutput
  let eactorDhhrsr := cap
  let totalResourceOutages := r.totalResourceMWZoneSouth + r.totalResourceMWZoneNorth
      + r.totalResourceMWZoneWest + r.totalResourceMWZoneHouston
  let forecastedNetLoad := forecastedDemand - forecastedRenewablesOutput
  let forecastedNetThermalCapacity := eactorDhhrsr - totalResourceOutages
  let forecastedThermalReserveMargin := forecastedNetThermalCapacity - forecastedNetLoad
  ⟨forecastedDemand, forecastedWindSupply, forecastedSolarSupply,
   forecastedRenewablesOutput, dispatchableSupply, eactorDhhrsr,
   totalResourceOutages, forecastedNetLoad, forecastedNetThermalCapacity,
   forecastedThermalReserveMargin⟩

/-- Zip-extraction helper `download_and_extract_zip`
(`eepp_phase_1.py` lines 75-80, `eepp_phase_2.py` lines 78-83): the archive is
opened, every entry is extracted via `zf.extractall`, and the first entry name
`names[0]` of `zf.namelist()` is returned.  `none` models the `IndexError`
raised by `names[0]` on an archive with no entries; no other failure path
exists in the function. -/
def download_and_extract_zip (names : List String) : Option String :=
  names.head?

/-- Column naming of pandas `DataFrame.merge(..., on = keys)` with its default
suffixes `("_x", "_y")`: key columns appear once, and a non-key column name
present in both tables is suffixed with "_x" on the left side and "_y" on the
right side, while unshared non-key names are kept unchanged.  No error path
exists: overlapping names are always resolved by suffixing.  Models the merges
at `eepp_phase_1.py` lines 161-166. -/
def mergeColumns (left right keys : List String) : List String :=
  let ln := left.filter fun c => decide (c ∉ keys)
  let rn := right.filter fun c => decide (c ∉ keys)
  keys ++ (ln.map fun c => if c ∈ rn then c ++ "_x" else c)
       ++ (rn.map fun c => if c ∈ ln then c ++ "_y" else c)

/-- Rename map applied to the joined Phase 1 table after the merges and before
any derived metric is computed (`eepp_phase_1.py` lines 167-171). -/
def phase1Rename (c : String) : String :=
  if c = "SystemTotal" then "Forecasted Demand"
  else if c = "COP_HSL_SYSTEM_WIDE_y" then "Forecasted Wind Supply"
  else if c = "COP_HSL_SYSTEM_WIDE_x" then "Forecasted Solar Supply"
  else c

/-- C1: for a calendar date `d` and an hour-ending field given either as the
plain integer `H` with `H ∈ [1,24]` or as a colon-delimited clock string whose
leading component parses to `H`, normalization yields the timestamp at clock
hour `H - 1` on the same calendar date `d`; in particular hour-ending 24
yields hour 23 on `d` itself, with no midnight rollover to the next date. -/
theorem normalize_hour_ending (d : Nat) (H : Int) (f : HourField)
    (h1 : 1 ≤ H) (h2 : H ≤ 24)
    (hf : f = HourField.int H ∨
      ∃ s, f = HourField.clock s ∧ parseDecimalInt (leadingComponent s) = some H) :
    normalize d f = some ⟨d, (H - 1).toNat⟩ ∧
    (H = 24 → normalize d f = some ⟨d, 23⟩) := by
  have hp : parseHourEnding f = some H := by
    rcases hf with hf | ⟨s, hs, hps⟩
    · rw [hf]; rfl
    · rw [hs]; exact hps
  have hb : normalize d f = mkDatetime d (H - 1) := by
    rw [normalize, hp]
    rfl
  have hmain : normalize d f = some ⟨d, (H - 1).toNat⟩ := by
    rw [hb, mkDatetime, if_pos (show 0 ≤ H - 1 ∧ H - 1 < 24 by omega)]
  refine ⟨hmain, fun h24 => ?_⟩
  subst h24
  simpa using hmain

/-- Witness for C1: on date 7 with the clock string "24:00", normalization
produces clock hour 23 on date 7 itself. -/
theorem normalize_hour_ending_witness :
    normalize 7 (HourField.clock "24:00") = some ⟨7, 23⟩ :=
  (normalize_hour_ending 7 24 (HourField.clock "24:00") (by decide) (by decide)
    (Or.inr ⟨"24:00", rfl, by decide⟩)).2 rfl

/-- C2: for every row of the Phase 1 joined table and any capacity scalar,
the derived columns satisfy exactly the advertised formulas: renewables output
is wind plus solar; dispatchable supply, net load, total resource outages,
net thermal capacity and thermal reserve margin are the stated differences and
sums; and dispatchable supply coincides with net load. -/
theorem derived_columns_formulas (cap : ℚ) (r : P1Row) :
    (deriveRow cap r).forecastedDemand = r.systemTotal ∧
    (deriveRow cap r).forecastedWindSupply = r.copHslSystemWideWind ∧
    (deriveRow cap r).forecastedSolarSupply = r.copHslSystemWideSolar ∧
    (deriveRow cap r).forecastedRenewablesOutput
      = (deriveRow cap r).forecastedWindSupply + (deriveRow cap r).forecastedSolarSupply ∧
    (deriveRow cap r).dispatchableSupply
      = (deriveRow cap r).forecastedDemand - (deriveRow cap r).forecastedRenewablesOutput ∧
    (deriveRow cap r).forecastedNetLoad
      = (deriveRow cap r).forecastedDemand - (deriveRow cap r).forecastedRenewablesOutput ∧
    (deriveRow cap r).dispatchableSupply = (deriveRow cap r).forecastedNetLoad ∧
    (deriveRow cap r).totalResourceOutages
      = r.totalResourceMWZoneSouth + r.totalResourceMWZoneNorth
        + r.totalResourceMWZoneWest + r.totalResourceMWZoneHouston ∧
    (deriveRow cap r).eactorDhhrsr = cap ∧
    (deriveRow cap r).forecastedNetThermalCapacity
      = cap - (deriveRow cap r).totalResourceOutages ∧
    (deriveRow cap r).forecastedThermalReserveMargin
      = (deriveRow cap r).forecastedNetThermalCapacity - (deriveRow cap r).forecastedNetLoad :=
  ⟨rfl, rfl, rfl, rfl, rfl, rfl, rfl, rfl, rfl, rfl, rfl⟩

/-- C4 counterexample: the Phase 1 solar/wind merge, where both tables carry
the undisambiguated measurement column `COP_HSL_SYSTEM_WIDE`, succeeds and
silently resolves the collision with the default suffixes instead of failing
with `AmbiguousColumn`. -/
theorem merge_shared_column_is_suffixed :
    mergeColumns ["DELIVERY_DATE", "HOUR_ENDING", "COP_HSL_SYSTEM_WIDE"]
        ["DELIVERY_DATE", "HOUR_ENDING", "COP_HSL_SYSTEM_WIDE"]
        ["DELIVERY_DATE", "HOUR_ENDING"]
      = ["DELIVERY_DATE", "HOUR_ENDING",
         "COP_HSL_SYSTEM_WIDE_x", "COP_HSL_SYSTEM_WIDE_y"] := by
  decide

/-- C4 amended: an identically-named non-key measurement column present in
both joined tables never makes the join fail: the merge always succeeds and
silently disambiguates the name with the default suffixes, so that both
`c ++ "_x"` (from the left table) and `c ++ "_y"` (from the right table)
appear among the result columns; the pipeline afterwards renames the suffixed
columns via its fixed rename map before any derived metric is computed. -/
theorem merge_ambiguous_column_suffixes (left right keys : List String)
    (c : String) (hl : c ∈ left) (hr : c ∈ right) (hk : c ∉ keys) :
    (c ++ "_x") ∈ mergeColumns left right keys ∧
    (c ++ "_y") ∈ mergeColumns left right keys ∧
    phase1Rename ("COP_HSL_SYSTEM_WIDE" ++ "_y") = "Forecasted Wind Supply" ∧
    phase1Rename ("COP_HSL_SYSTEM_WIDE" ++ "_x") = "Forecasted Solar Supply" := by
  have hln : c ∈ left.filter fun x => decide (x ∉ keys) :=
    List.mem_filter.mpr ⟨hl, by simpa using hk⟩
  have hrn : c ∈ right.filter fun x => decide (x ∉ keys) :=
    List.mem_filter.mpr ⟨hr, by simpa using hk⟩
  refine ⟨?_, ?_, rfl, rfl⟩
  · refine List.mem_append.mpr (Or.inl (List.mem_append.mpr (Or.inr ?_)))
    exact List.mem_map.mpr ⟨c, hln, if_pos hrn⟩
  · refine List.mem_append.mpr (Or.inr ?_)
    exact List.mem_map.mpr ⟨c, hrn, if_pos hln⟩

/-- Witness for the amended C4 theorem at the concrete Phase 1 solar/wind
merge columns. -/
theorem merge_ambiguous_column_suffixes_witness :
    ("COP_HSL_SYSTEM_WIDE" ++ "_x")
        ∈ mergeColumns ["DELIVERY_DATE", "HOUR_ENDING", "COP_HSL_SYSTEM_WIDE"]
            ["DELIVERY_DATE", "HOUR_ENDING", "COP_HSL_SYSTEM_WIDE"]
            ["DELIVERY_DATE", "HOUR_ENDING"] ∧
    ("COP_HSL_SYSTEM_WIDE" ++ "_y")
        ∈ mergeColumns ["DELIVERY_DATE", "HOUR_ENDING", "COP_HSL_SYSTEM_WIDE"]
            ["DELIVERY_DATE", "HOUR_ENDING", "COP_HSL_SYSTEM_WIDE"]
            ["DELIVERY_DATE", "HOUR_ENDING"] := by
  have h := merge_ambiguous_column_suffixes
    ["DELIVERY_DATE", "HOUR_ENDING", "COP_HSL_SYSTEM_WIDE"]
    ["DELIVERY_DATE", "HOUR_ENDING", "COP_HSL_SYSTEM_WIDE"]
    ["DELIVERY_DATE", "HOUR_ENDING"]
    "COP_HSL_SYSTEM_WIDE" (by decide) (by decide) (by decide)
  exact ⟨h.1, h.2.1⟩

/-- C5 counterexample: an archive holding the two entries "a.csv" and "b.csv"
is not rejected; the helper extracts everything and returns the first entry
name, contradicting the claim that more than one entry fails with
`UnexpectedArchiveContents`. -/
theorem download_two_entries_returns_head :
    download_and_extract_zip ["a.csv", "b.csv"] = some "a.csv" := rfl

/-- C5 amended: the zip helper fails exactly on an archive with zero entries
(an `IndexError` from `names[0]`), and otherwise extracts all entries and
returns the first contained entry, regardless of how many entries the archive
holds. -/
theorem download_and_extract_zip_head (names : List String) :
    (download_and_extract_zip names = none ↔ names = []) ∧
    ∀ n rest, names = n :: rest → download_and_extract_zip names = some n := by
  constructor
  · cases names <;> simp [download_and_extract_zip]
  · intro n rest h
    subst h
    rfl

/-- Witness for the amended C5 theorem at a singleton archive. -/
theorem download_and_extract_zip_head_witness :
    download_and_extract_zip ["report.csv"] = some "report.csv" :=
  (download_and_extract_zip_head ["report.csv"]).2 "report.csv" [] rfl

/-- One sub-hourly real-time settlement-price row as consumed by `plot_dart`
(`eepp_phase_2.py` lines 150-160) after the normalization of lines 206-209;
`time` abstracts the canonical `datetime` key. -/
structure RtmRow where
  settlementPoint : String
  time : Nat
  settlementPointPrice : ℚ
deriving DecidableEq

/-- One hourly day-ahead settlement-price row as consumed by `plot_dart`. -/
structure DamRow where
  settlementPoint : String
  time : Nat
  settlementPointPrice : ℚ
deriving DecidableEq

/-- Arithmetic mean of a list of rationals, modelling pandas `mean()`. -/
def listMean (l : List ℚ) : ℚ := l.sum / l.length

/-- Real-time sub-hourly prices for settlement point `sp` at canonical time
`t`: one group of `rtm.groupby(["datetime"], ...)` after the filter
`rtm_yday[rtm_yday["settlementPoint"] == sp]` (`plot_dart`, lines 152-153). -/
def rtmPricesAt (rtm : List RtmRow) (sp : String) (t : Nat) : List ℚ :=
  (rtm.filter fun r => decide (r.settlementPoint = sp ∧ r.time = t)).map
    fun r => r.settlementPointPrice

/-- Hourly mean of the real-time sub-hourly prices, modelling
`rtm.groupby(["datetime"], as_index=False)["settlementPointPrice"].mean()`
(`plot_dart`, line 153) at one timestamp; `none` when `t` does not occur in
the filtered real-time rows (no such group exists). -/
def rtmMeanAt (rtm : List RtmRow) (sp : String) (t : Nat) : Option ℚ :=
  if (rtmPricesAt rtm sp t).isEmpty then none
  else some (listMean (rtmPricesAt rtm sp t))

/-- Index of the hourly-mean table `rtm_hourly`: the distinct canonical
timestamps of the filtered real-time rows.  These are exactly the index of the
spread series, because `dam` is reindexed by `rtm_hourly["datetime"]`
(`plot_dart`, line 154). -/
def dartSpreadKeys (rtm : List RtmRow) (sp : String) : List Nat :=
  ((rtm.filter fun r => decide (r.settlementPoint = sp)).map fun r => r.time).dedup

/-- Day-ahead price for settlement point `sp` at canonical time `t`, as found
by `dam.set_index("datetime").reindex(rtm_hourly["datetime"])`
(`plot_dart`, line 154): the matching row's price, `none` modelling the `NaN`
that `reindex` inserts when `t` is absent from the day-ahead series. -/
def damPriceAt (dam : List DamRow) (sp : String) (t : Nat) : Option ℚ :=
  ((dam.filter fun r => decide (r.settlementPoint = sp)).find?
      fun r => decide (r.time = t)).map
    fun r => r.settlementPointPrice

/-- DART spread value at canonical time `t` (`plot_dart`, line 155): the
day-ahead price minus the real-time hourly mean; `none` models a `NaN` entry
of the spread array (a `NaN` day-ahead price propagates through the
subtraction). -/
def dartSpreadAt (dam : List DamRow) (rtm : List RtmRow) (sp : String)
    (t : Nat) : Option ℚ :=
  match damPriceAt dam sp t, rtmMeanAt rtm sp t with
  | some dp, some m => some (dp - m)
  | _, _ => none

/-- C3 counterexample: with the day-ahead series covering only time 1 and
real-time rows at times 1 and 2, time 2 is present in only one of the two
series yet remains an index entry of the spread series — with an undefined
(`NaN`) value — instead of being dropped: the alignment is a reindex onto the
real-time hourly index, not an inner alignment. -/
theorem dart_spread_not_inner_aligned :
    2 ∈ dartSpreadKeys [⟨"LZ_NORTH", 1, 28⟩, ⟨"LZ_NORTH", 2, 35⟩] "LZ_NORTH" ∧
    damPriceAt [⟨"LZ_NORTH", 1, 30⟩] "LZ_NORTH" 2 = none ∧
    dartSpreadAt [⟨"LZ_NORTH", 1, 30⟩]
      [⟨"LZ_NORTH", 1, 28⟩, ⟨"LZ_NORTH", 2, 35⟩] "LZ_NORTH" 2 = none := by
  decide

/-- C3 amended: the DART spread first reduces the real-time sub-hourly rows to
an hourly mean grouped by canonical timestamp, then subtracts that mean from
the day-ahead price at the matching timestamp; the spread series is indexed by
the real-time hourly timestamps, so timestamps present only in the day-ahead
series are dropped, while timestamps present only in the real-time series are
retained with an undefined (`NaN`) spread value. -/
theorem dart_spread_semantics (dam : List DamRow) (rtm : List RtmRow)
    (sp : String) (t : Nat) :
    (t ∈ dartSpreadKeys rtm sp ↔ ∃ r ∈ rtm, r.settlementPoint = sp ∧ r.time = t) ∧
    (∀ m, rtmMeanAt rtm sp t = some m → m = listMean (rtmPricesAt rtm sp t)) ∧
    (∀ dp m, damPriceAt dam sp t = some dp → rtmMeanAt rtm sp t = some m →
      dartSpreadAt dam rtm sp t = some (dp - m)) ∧
    (damPriceAt dam sp t = none → dartSpreadAt dam rtm sp t = none) := by
  refine ⟨?_, ?_, ?_, ?_⟩
  · simp only [dartSpreadKeys, List.mem_dedup, List.mem_map, List.mem_filter,
      decide_eq_true_eq]
    constructor
    · rintro ⟨r, ⟨hr, hsp⟩, ht⟩
      exact ⟨r, hr, hsp, ht⟩
    · rintro ⟨r, hr, hsp, ht⟩
      exact ⟨r, ⟨hr, hsp⟩, ht⟩
  · intro m hm
    rw [rtmMeanAt] at hm
    split at hm
    · cases hm
    · exact (Option.some.inj hm).symm
  · intro dp m h1 h2
    rw [dartSpreadAt, h1, h2]
  · intro h
    rw [dartSpreadAt, h]

/-- Witness for the amended C3 theorem: with day-ahead price 30 and real-time
sub-hourly prices 28, 29 and 33 at the same hour, the hourly real-time mean is
30 and the spread is 0. -/
theorem dart_spread_semantics_witness :
    rtmMeanAt [⟨"LZ_NORTH", 5, 28⟩, ⟨"LZ_NORTH", 5, 29⟩, ⟨"LZ_NORTH", 5, 33⟩]
      "LZ_NORTH" 5 = some 30 ∧
    dartSpreadAt [⟨"LZ_NORTH", 5, 30⟩]
      [⟨"LZ_NORTH", 5, 28⟩, ⟨"LZ_NORTH", 5, 29⟩, ⟨"LZ_NORTH", 5, 33⟩]
      "LZ_NORTH" 5 = some 0 := by
  have hmean : rtmMeanAt
      [⟨"LZ_NORTH", 5, 28⟩, ⟨"LZ_NORTH", 5, 29⟩, ⟨"LZ_NORTH", 5, 33⟩]
      "LZ_NORTH" 5 = some 30 := by
    have h0 : rtmMeanAt
        [⟨"LZ_NORTH", 5, 28⟩, ⟨"LZ_NORTH", 5, 29⟩, ⟨"LZ_NORTH", 5, 33⟩]
        "LZ_NORTH" 5 = some (listMean [28, 29, 33]) := rfl
    rw [h0]
    norm_num [listMean, List.sum_cons, List.sum_nil]
  have h := (dart_spread_semantics [⟨"LZ_NORTH", 5, 30⟩]
      [⟨"LZ_NORTH", 5, 28⟩, ⟨"LZ_NORTH", 5, 29⟩, ⟨"LZ_NORTH", 5, 33⟩]
      "LZ_NORTH" 5).2.2.1 30 30 (by decide) hmean
  refine ⟨hmean, ?_⟩
  rw [h]
  norm_num

/-- One row of an API response page: an association list from field keys to
values, modelling the row dictionaries of the JSON payload. -/
abbrev ApiRow := List (String × ℚ)

/-- One page of the paginated API response, as read from
`payload.get("data", [])` and `payload.get("fields")`
(`eepp_phase_2.py` lines 112 and 116): the row list and the optional declared
schema (its field names). -/
structure ApiPayload where
  data : List ApiRow
  fields : Option (List String)

/-- Paging loop of `get_api_rtm_spp_yesterday` and `get_api_dam_spp_yesterday`
(`eepp_phase_2.py` lines 109-116 and 126-131): request page `page`, append its
rows to the accumulator, stop as soon as a page holds fewer than `size` rows,
else advance to the next page.  The result is the accumulated rows, the number
of page requests issued, and the `fields` entry of the last response payload
(the Python variable `payload` holds the final response when the loop exits).
`fuel` bounds the recursion; `none` models a loop that has not terminated
within `fuel` requests. -/
def queryLoop (server : Nat → ApiPayload) (size : Nat) :
    Nat → Nat → List ApiRow → Nat →
      Option (List ApiRow × Nat × Option (List String))
  | 0, _, _, _ => none
  | fuel + 1, page, acc, reqs =>
      if (server page).data.length < size then
        some (acc ++ (server page).data, reqs + 1, (server page).fields)
      else
        queryLoop server size fuel (page + 1) (acc ++ (server page).data) (reqs + 1)

/-- Entry point of the paging loop: page numbering starts at 1, with no rows
accumulated and no requests issued (`params = {..., "page": 1, "size": 100}`,
`rows = []`). -/
def query_all_pages (server : Nat → ApiPayload) (size fuel : Nat) :
    Option (List ApiRow × Nat × Option (List String)) :=
  queryLoop server size fuel 1 [] 0

/-- Helper: a short page stops the loop and yields the accumulated rows, the
final request count and the final page's schema. -/
theorem queryLoop_stop (server : Nat → ApiPayload) (size fuel page : Nat)
    (acc : List ApiRow) (reqs : Nat)
    (h : (server page).data.length < size) :
    queryLoop server size (fuel + 1) page acc reqs
      = some (acc ++ (server page).data, reqs + 1, (server page).fields) := by
  rw [queryLoop, if_pos h]

/-- Helper: a full page lets the loop continue with the next page number. -/
theorem queryLoop_continue (server : Nat → ApiPayload) (size fuel page : Nat)
    (acc : List ApiRow) (reqs : Nat)
    (h : ¬ (server page).data.length < size) :
    queryLoop server size (fuel + 1) page acc reqs
      = queryLoop server size fuel (page + 1) (acc ++ (server page).data) (reqs + 1) := by
  rw [queryLoop, if_neg h]

/-- Helper: the loop terminates whenever some reachable page is short. -/
theorem queryLoop_isSome (server : Nat → ApiPayload) (size : Nat) :
    ∀ fuel page acc reqs k, page ≤ k → k < page + fuel →
      (server k).data.length < size →
      (queryLoop server size fuel page acc reqs).isSome = true := by
  intro fuel
  induction fuel with
  | zero =>
      intro page acc reqs k hk1 hk2 _
      omega
  | succ f ih =>
      intro page acc reqs k hk1 hk2 hshort
      by_cases hc : (server page).data.length < size
      · rw [queryLoop_stop server size f page acc reqs hc]
        rfl
      · have hne : page ≠ k := fun he => hc (he ▸ hshort)
        rw [queryLoop_continue server size f page acc reqs hc]
        exact ih (page + 1) (acc ++ (server page).data) (reqs + 1) k
          (by omega) (by omega) hshort

/-- C6: the paginated fetch requests consecutive pages of the fixed page size
and stops exactly at the first page with fewer rows than the page size,
returning the concatenation of all pages' rows in server-returned order; for a
server returning exactly `size` rows on pages 1 and 2 and fewer on page 3, the
client issues exactly 3 requests; and for any server response sequence
containing a short page the loop terminates. -/
theorem query_all_pages_paging (server : Nat → ApiPayload) (size fuel : Nat)
    (h1 : (server 1).data.length = size)
    (h2 : (server 2).data.length = size)
    (h3 : (server 3).data.length < size)
    (hfuel : 3 ≤ fuel) :
    query_all_pages server size fuel
      = some ((server 1).data ++ (server 2).data ++ (server 3).data, 3,
          (server 3).fields) ∧
    ∀ srv : Nat → ApiPayload, ∀ sz k : Nat, 1 ≤ k →
      (srv k).data.length < sz →
      ∃ fl, (query_all_pages srv sz fl).isSome = true := by
  constructor
  · obtain ⟨f, rfl⟩ : ∃ f, fuel = f + 3 := ⟨fuel - 3, by omega⟩
    have s1 : query_all_pages server size (f + 3)
        = queryLoop server size (f + 2) 2 ((server 1).data) 1 := by
      have := queryLoop_continue server size (f + 2) 1 [] 0 (by omega)
      rw [List.nil_append] at this
      exact this
    have s2 : queryLoop server size (f + 2) 2 ((server 1).data) 1
        = queryLoop server size (f + 1) 3 ((server 1).data ++ (server 2).data) 2 :=
      queryLoop_continue server size (f + 1) 2 ((server 1).data) 1 (by omega)
    have s3 : queryLoop server size (f + 1) 3
          ((server 1).data ++ (server 2).data) 2
        = some ((server 1).data ++ (server 2).data ++ (server 3).data, 3,
            (server 3).fields) :=
      queryLoop_stop server size f 3 ((server 1).data ++ (server 2).data) 2 h3
    exact s1.trans (s2.trans s3)
  · intro srv sz k hk hshort
    exact ⟨k, queryLoop_isSome srv sz k 1 [] 0 k hk (by omega) hshort⟩

/-- Mock server for the C6 witness: two full pages of two rows each, then a
short page of one row. -/
def mockServer : Nat → ApiPayload := fun page =>
  if page = 1 then ⟨[[("spp", 1)], [("spp", 2)]], some ["spp"]⟩
  else if page = 2 then ⟨[[("spp", 3)], [("spp", 4)]], some ["spp"]⟩
  else ⟨[[("spp", 5)]], some ["spp"]⟩

/-- Witness for C6 on the mock server with page size 2: exactly 3 requests,
rows concatenated in order. -/
theorem query_all_pages_paging_witness :
    query_all_pages mockServer 2 3
      = some ((mockServer 1).data ++ (mockServer 2).data ++ (mockServer 3).data,
          3, (mockServer 3).fields) :=
  (query_all_pages_paging mockServer 2 3 rfl rfl (by decide) (by decide)).1

/-- Column names inferred by `pd.DataFrame(rows)` from the row keys, in
first-seen order. -/
def inferColumns (rows : List ApiRow) : List String :=
  ((rows.map fun r => r.map Prod.fst).flatten).dedup

/-- Column selection of `pd.DataFrame(rows, columns=cols)` as built at
`eepp_phase_2.py` lines 116-117: `cols` is the declared field-name list when
the final payload carried a truthy `fields` entry
(`[f["name"] for f in fields] if fields else None`; an empty list is falsy in
Python), else the columns are inferred from the row keys. -/
def dataFrameColumns (fields : Option (List String)) (rows : List ApiRow) :
    List String :=
  match fields with
  | some fs => if fs.isEmpty then inferColumns rows else fs
  | none => inferColumns rows

/-- Mock server for the C9 counterexample: page 1 is full and declares the
schema `["firstCol"]`; page 2 is short and declares `["lastCol"]`. -/
def schemaServer : Nat → ApiPayload := fun page =>
  if page = 1 then ⟨[[("firstCol", 1)], [("firstCol", 2)]], some ["firstCol"]⟩
  else ⟨[[("lastCol", 3)]], some ["lastCol"]⟩

/-- C9 counterexample: with page size 2 against `schemaServer`, the
accumulated result carries the schema of the last fetched page,
`["lastCol"]`, not the first page's `["firstCol"]`: the loop variable holding
the payload is overwritten on every iteration, so the declared column names
come from the page that terminated the loop. -/
theorem result_columns_from_last_page :
    query_all_pages schemaServer 2 2
      = some ([[("firstCol", 1)], [("firstCol", 2)], [("lastCol", 3)]], 2,
          some ["lastCol"]) ∧
    dataFrameColumns (some ["lastCol"]) [] ≠ ["firstCol"] := by
  constructor
  · have s1 : query_all_pages schemaServer 2 2
        = queryLoop schemaServer 2 1 2 ((schemaServer 1).data) 1 := by
      have := queryLoop_continue schemaServer 2 1 1 [] 0 (by decide)
      rw [List.nil_append] at this
      exact this
    have s2 : queryLoop schemaServer 2 1 2 ((schemaServer 1).data) 1
        = some ((schemaServer 1).data ++ (schemaServer 2).data, 2,
            (schemaServer 2).fields) :=
      queryLoop_stop schemaServer 2 0 2 ((schemaServer 1).data) 1 (by decide)
    rw [s1, s2]
    rfl
  · decide

/-- C9 amended: the accumulated result table's declared column names are taken
from the schema of the last fetched page (the page that terminated the loop);
when that page declares no schema (or an empty one, falsy in Python), column
names are inferred from the row keys. -/
theorem api_columns_last_schema (server : Nat → ApiPayload) (size fuel : Nat)
    (h1 : (server 1).data.length = size)
    (h2 : (server 2).data.length < size)
    (hfuel : 2 ≤ fuel) :
    query_all_pages server size fuel
      = some ((server 1).data ++ (server 2).data, 2, (server 2).fields) ∧
    (∀ rows, dataFrameColumns none rows = inferColumns rows) ∧
    (∀ rows, dataFrameColumns (some []) rows = inferColumns rows) ∧
    (∀ fs rows, fs ≠ [] → dataFrameColumns (some fs) rows = fs) := by
  refine ⟨?_, fun rows => rfl, fun rows => rfl, ?_⟩
  · obtain ⟨f, rfl⟩ : ∃ f, fuel = f + 2 := ⟨fuel - 2, by omega⟩
    have s1 : query_all_pages server size (f + 2)
        = queryLoop server size (f + 1) 2 ((server 1).data) 1 := by
      have := queryLoop_continue server size (f + 1) 1 [] 0 (by omega)
      rw [List.nil_append] at this
      exact this
    have s2 : queryLoop server size (f + 1) 2 ((server 1).data) 1
        = some ((server 1).data ++ (server 2).data, 2, (server 2).fields) :=
      queryLoop_stop server size f 2 ((server 1).data) 1 h2
    exact s1.trans s2
  · intro fs rows hfs
    rw [dataFrameColumns, if_neg]
    simpa using hfs

/-- Witness for the amended C9 theorem on the concrete mock server, with the
two column-selection modes evaluated on concrete inputs. -/
theorem api_columns_last_schema_witness :
    query_all_pages schemaServer 2 2
      = some ((schemaServer 1).data ++ (schemaServer 2).data, 2,
          (schemaServer 2).fields) ∧
    dataFrameColumns none [[("k", 1)]] = ["k"] ∧
    dataFrameColumns (some ["lastCol"]) [[("k", 1)]] = ["lastCol"] := by
  have h := api_columns_last_schema schemaServer 2 2 rfl (by decide) (by decide)
  exact ⟨h.1, (h.2.1 [[("k", 1)]]).trans (by decide),
    h.2.2.2 ["lastCol"] [[("k", 1)]] (by decide)⟩

/-- Presence check of the three ERCOT API credentials, modelling the Python
truthiness test `not (API_USER and API_PASS and API_KEY)` over the
`os.environ.get` results (`eepp_phase_2.py` lines 34-36 and 103): every
credential must be set and non-empty. -/
def credsPresent (user pw key : Option String) : Bool :=
  match user, pw, key with
  | some u, some p, some k => !u.isEmpty && !p.isEmpty && !k.isEmpty
  | _, _, _ => false

/-- Optional real-time price fetch `get_api_rtm_spp_yesterday`
(`eepp_phase_2.py` lines 102-118).  With incomplete credentials it returns
immediately (`return None`) without any network request; otherwise it issues
one token request plus the page requests of the loop, and maps an empty row
accumulation to the same `None` sentinel (`if not rows: return None`,
line 115).  The outer `Option` is `none` only when the paging fuel is
exhausted; the returned pair is the optional saved table together with the
total number of HTTP requests issued. -/
def get_api_rtm_spp_yesterday (user pw key : Option String)
    (server : Nat → ApiPayload) (fuel : Nat) :
    Option (Option (List ApiRow) × Nat) :=
  if credsPresent user pw key then
    match query_all_pages server 100 fuel with
    | none => none
    | some (rows, pageReqs, _fields) =>
        some (if rows.isEmpty then none else some rows, pageReqs + 1)
  else some (none, 0)

/-- Panels drawn by `plot_all` (`eepp_phase_2.py` lines 162-170): the five
DAM/ancillary panels are always drawn; the DART panel is drawn only when the
real-time table is non-empty, and its axis is deleted otherwise
(`fig.delaxes`). -/
def plot_all_panels (rtmEmpty : Bool) : List String :=
  ["DAM_LZ_HOUSTON", "DAM_LZ_NORTH", "ANC_ECRS", "ANC_RRS", "ANC_NSPIN"]
    ++ if rtmEmpty then [] else ["DART_LZ_NORTH"]

/-- Worksheets written to the Phase 2 workbook (`eepp_phase_2.py` lines
210-217): the four required DAM sheets always; the RTM sheet only when the
real-time table is non-empty; the API DAM sheet only when that optional table
is non-empty. -/
def workbookSheets (rtmEmpty apiDamEmpty : Bool) : List String :=
  ["DAM_CPC_Today", "DAM_CPC_Yesterday", "DAM_SPP_Today", "DAM_SPP_Yesterday"]
    ++ (if rtmEmpty then [] else ["RTM_SPP_Yesterday"])
    ++ (if apiDamEmpty then [] else ["DAM_SPP_Yesterday_API"])

/-- Output of the downstream portion of Phase 2 `main` that depends on the
optional fetch results. -/
structure Phase2Output where
  rtmTable : List ApiRow
  sheets : List String
  panels : List String
deriving DecidableEq

/-- Downstream portion of Phase 2 `main` (`eepp_phase_2.py` lines 198-218): a
`None` fetch result is replaced by an empty table (`pd.DataFrame()`), the
workbook and combined figure are produced unconditionally, and the run
completes: the function is total. -/
def phase2Downstream (rtmResult apiDamResult : Option (List ApiRow)) :
    Phase2Output :=
  let rtm := rtmResult.getD []
  let apiDam := apiDamResult.getD []
  ⟨rtm, workbookSheets rtm.isEmpty apiDam.isEmpty, plot_all_panels rtm.isEmpty⟩

/-- C7: with any API credential absent or empty, the optional real-time fetch
issues zero network requests and returns the no-data result without raising,
and the downstream Phase 2 pipeline still completes: the workbook holds the
four required DAM sheets (and no RTM sheet), and the combined figure holds its
five required panels with the DART panel deleted. -/
theorem missing_credentials_no_call (user pw key : Option String)
    (server : Nat → ApiPayload) (fuel : Nat) (apiDam : Option (List ApiRow))
    (h : credsPresent user pw key = false) :
    get_api_rtm_spp_yesterday user pw key server fuel = some (none, 0) ∧
    (phase2Downstream none apiDam).sheets
      = ["DAM_CPC_Today", "DAM_CPC_Yesterday", "DAM_SPP_Today",
         "DAM_SPP_Yesterday"]
        ++ (if (apiDam.getD []).isEmpty then [] else ["DAM_SPP_Yesterday_API"]) ∧
    (phase2Downstream none apiDam).panels
      = ["DAM_LZ_HOUSTON", "DAM_LZ_NORTH", "ANC_ECRS", "ANC_RRS", "ANC_NSPIN"] := by
  refine ⟨?_, rfl, rfl⟩
  rw [get_api_rtm_spp_yesterday, h]
  rfl

/-- Witness for C7: with the password unset, the fetch issues zero requests
and yields the no-data sentinel. -/
theorem missing_credentials_no_call_witness :
    get_api_rtm_spp_yesterday (some "user") none (some "key")
      (fun _ => ⟨[], none⟩) 5 = some (none, 0) :=
  (missing_credentials_no_call (some "user") none (some "key")
    (fun _ => ⟨[], none⟩) 5 none rfl).1

/-- C10: with credentials present but the fully-paged query yielding zero
rows, the fetch returns the same no-data sentinel (`None`) as the
missing-credentials case instead of raising; the caller substitutes an empty
table, the RTM worksheet is omitted from the workbook, the combined figure's
DART panel is deleted, and the Phase 2 run still completes. -/
theorem rtm_zero_rows_no_data (user pw key : Option String)
    (server : Nat → ApiPayload) (fuel : Nat) (apiDam : Option (List ApiRow))
    (hc : credsPresent user pw key = true)
    (hempty : (server 1).data = [])
    (hfuel : 1 ≤ fuel) :
    get_api_rtm_spp_yesterday user pw key server fuel = some (none, 2) ∧
    (phase2Downstream none apiDam).rtmTable = [] ∧
    (phase2Downstream none apiDam).sheets
      = ["DAM_CPC_Today", "DAM_CPC_Yesterday", "DAM_SPP_Today",
         "DAM_SPP_Yesterday"]
        ++ (if (apiDam.getD []).isEmpty then [] else ["DAM_SPP_Yesterday_API"]) ∧
    (phase2Downstream none apiDam).panels
      = ["DAM_LZ_HOUSTON", "DAM_LZ_NORTH", "ANC_ECRS", "ANC_RRS", "ANC_NSPIN"] := by
  refine ⟨?_, rfl, rfl, rfl⟩
  obtain ⟨f, rfl⟩ : ∃ f, fuel = f + 1 := ⟨fuel - 1, by omega⟩
  have hq : query_all_pages server 100 (f + 1)
      = some ([], 1, (server 1).fields) := by
    have := queryLoop_stop server 100 f 1 [] 0
      (by rw [hempty]; decide)
    rw [hempty] at this
    exact this
  rw [get_api_rtm_spp_yesterday, hc]
  simp only [if_true]
  rw [hq]
  rfl

/-- Witness for C10: full credentials, a server whose first page is empty. -/
theorem rtm_zero_rows_no_data_witness :
    get_api_rtm_spp_yesterday (some "user") (some "pw") (some "key")
      (fun _ => ⟨[], none⟩) 1 = some (none, 2) :=
  (rtm_zero_rows_no_data (some "user") (some "pw") (some "key")
    (fun _ => ⟨[], none⟩) 1 none rfl rfl (by decide)).1

/-- Cell of the MORA workbook sheet "Capacity by Resource Category": either a
numeric value or a non-numeric (textual) value, as read by `pd.read_excel`. -/
inductive Cell where
  | num (q : ℚ)
  | txt (s : String)
deriving DecidableEq

/-- Positional cell access `df.iloc[i, j]`; `none` models the `IndexError`
raised when the position lies outside the sheet. -/
def iloc (table : List (List Cell)) (i j : Nat) : Option Cell :=
  (table.get? i).bind fun row => row.get? j

/-- Numeric content of a cell; `none` models the `TypeError` that the
net-thermal-capacity subtraction raises on a non-numeric value. -/
def cellValue : Cell → Option ℚ
  | Cell.num q => some q
  | Cell.txt _ => none

/-- Capacity lookup and Phase 1 derivation (`eepp_phase_1.py` lines 159-160,
174 and 180-181): the scalar is read from the fixed cell `iloc[2, 3]` of the
capacity sheet, broadcast as the constant column `EACTOR_DHHRSR` onto every
row, and consumed by the net-thermal-capacity subtraction.  `none` models the
aborted run: an `IndexError` on an absent cell, a `TypeError` on a non-numeric
one. -/
def deriveWithCapacity (mora : List (List Cell)) (rows : List P1Row) :
    Option (List P1Derived) :=
  match iloc mora 2 3 with
  | none => none
  | some c =>
      match cellValue c with
      | none => none
      | some cap => some (rows.map (deriveRow cap))

/-- C8: the total installed capacity is the single scalar at the fixed cell
(2, 3) of the capacity-by-resource-category sheet, broadcast unchanged into
the `EACTOR_DHHRSR` column of every row of the joined table; the derivation
fails exactly when that expected cell is absent or non-numeric. -/
theorem capacity_broadcast_and_failure (mora : List (List Cell))
    (rows : List P1Row) :
    (deriveWithCapacity mora rows = none ↔
      iloc mora 2 3 = none ∨ ∃ s, iloc mora 2 3 = some (Cell.txt s)) ∧
    ∀ q, iloc mora 2 3 = some (Cell.num q) →
      deriveWithCapacity mora rows = some (rows.map (deriveRow q)) ∧
      ∀ d ∈ rows.map (deriveRow q), d.eactorDhhrsr = q := by
  constructor
  · cases h : iloc mora 2 3 with
    | none =>
        rw [deriveWithCapacity, h]
        simp
    | some c =>
        cases c with
        | num q =>
            rw [deriveWithCapacity, h]
            simp [cellValue, h]
        | txt s =>
            rw [deriveWithCapacity, h]
            simp [cellValue, h]
  · intro q hq
    refine ⟨by rw [deriveWithCapacity, hq]; rfl, ?_⟩
    intro d hd
    obtain ⟨r, _, rfl⟩ := List.mem_map.1 hd
    rfl

/-- Concrete capacity sheet for the C8 witness, carrying the numeric value 500
at cell (2, 3). -/
def demoMora : List (List Cell) :=
  [[], [], [Cell.txt "Thermal", Cell.num 1, Cell.num 2, Cell.num 500]]

/-- Concrete joined rows for the C8 witness. -/
def demoRows : List P1Row :=
  [⟨1000, 100, 50, 1, 2, 3, 4⟩, ⟨900, 80, 40, 5, 6, 7, 8⟩]

/-- Witness for C8: with the expected cell numeric the derivation succeeds and
broadcasts the scalar; with the cell outside the sheet it fails. -/
theorem capacity_broadcast_and_failure_witness :
    deriveWithCapacity demoMora demoRows = some (demoRows.map (deriveRow 500)) ∧
    deriveWithCapacity [[]] demoRows = none :=
  ⟨((capacity_broadcast_and_failure demoMora demoRows).2 500 rfl).1,
   (capacity_broadcast_and_failure [[]] demoRows).1.mpr (Or.inl rfl)⟩

end EEPP
